import Mathlib

/-!
# Liveness validator: frame-accumulation validation state machine

Shallow embedding of the per-frame face-validation logic of the repository
(`src/node_app/public/mediapipe.js`, with the variant differences of
`src/unnamed/part_000` — no region of interest — and `src/unnamed/part_001` —
center-containment region test — captured by an optional `roi` field and a
second containment function).

Real-valued quantities of the source (scores, normalized coordinates, pixel
sizes) are modelled as rationals `ℚ`; JavaScript `Math.round` is modelled by
`jsRound`.  The per-frame entry point `evaluate` is the composition of the
source's `predictWebcam` guard (`if (appState === 'SUCCESS') return`) with
`handleDetections`, returning the decision that the corresponding UI status
conveys together with the updated mutable state
(`consecutiveFramesCounter`, `appState`).
-/

namespace Liveness

/-- A 2-D keypoint `{x, y}` in normalized coordinates, as produced by the
face detector. -/
structure Point where
  x : ℚ
  y : ℚ
  deriving DecidableEq

/-- The detector's bounding box `{originX, originY, width, height}` in
source-frame pixel units. -/
structure BoundingBox where
  originX : ℚ
  originY : ℚ
  width : ℚ
  height : ℚ
  deriving DecidableEq

/-- One face detection for a frame: `detection.categories[0].score`,
`detection.boundingBox`, and the first three entries of
`detection.keypoints` (`keypoints[0]` = left eye, `keypoints[1]` = right
eye, `keypoints[2]` = nose tip), which are the only ones the validator
reads (`isFacingForward`, `mediapipe.js` lines 250-253). -/
structure Detection where
  score : ℚ
  boundingBox : BoundingBox
  leftEye : Point
  rightEye : Point
  noseTip : Point
  deriving DecidableEq

/-- A normalized region-of-interest rectangle, `CONFIG.roi` in
`mediapipe.js` / `part_001`. -/
structure ROI where
  x : ℚ
  y : ℚ
  width : ℚ
  height : ℚ
  deriving DecidableEq

/-- The video-element geometry the region test reads
(`DOM.video.clientWidth/clientHeight/videoWidth/videoHeight`). -/
structure Video where
  clientWidth : ℚ
  clientHeight : ℚ
  videoWidth : ℚ
  videoHeight : ℚ
  deriving DecidableEq

/-- The validator configuration (`CONFIG` in the source): `minScore`,
`requiredConsecutiveFrames`, `frontalThreshold`, and the region of
interest, absent in the `part_000` variant. -/
structure Config where
  minScore : ℚ
  requiredConsecutiveFrames : ℕ
  frontalThreshold : ℚ
  roi : Option ROI
  deriving DecidableEq

/-- The phase flag, `appState` in the source: `'DETECTING'` / `'SUCCESS'`. -/
inductive Phase where
  | Detecting
  | Succeeded
  deriving DecidableEq

/-- The validator's cross-frame mutable state: `consecutiveFramesCounter`
and `appState`. -/
structure ValidatorState where
  consecutiveFrames : ℕ
  phase : Phase
  deriving DecidableEq

/-- The per-frame decision, abstracting the UI status the source emits:
`NoFace` = `STATUS.NO_FACE`, `Invalid` = `STATUS.INVALID`,
`Validating p` = `STATUS.VALIDATING(p)`, `Accepted` = the
`captureAndFinalize()` path, `AlreadyAccepted` = the silent early return of
`predictWebcam` once `appState === 'SUCCESS'`.  `OutOfRegion` is the
distinct out-of-region decision named by the specification; it is part of
the decision vocabulary so that statements about it can be made. -/
inductive Decision where
  | NoFace
  | OutOfRegion
  | Invalid
  | Validating (progress : ℤ)
  | Accepted
  | AlreadyAccepted
  deriving DecidableEq

/-- JavaScript `Math.round` on the (nonnegative) values arising here:
round half toward positive infinity. -/
def jsRound (q : ℚ) : ℤ := ⌊q + 1 / 2⌋

/-- `Math.round((counter / required) * 100)` from `handleDetections`
(`mediapipe.js` line 103). -/
def progressAt (counter required : ℕ) : ℤ :=
  jsRound ((counter : ℚ) / (required : ℚ) * 100)

/-- `isFacingForward` (`mediapipe.js` lines 250-262): horizontal
nose-to-eye distances; zero distance fails closed; otherwise compare the
min/max ratio against the frontal threshold. -/
def isFacingForward (leftEye rightEye noseTip : Point)
    (frontalThreshold : ℚ) : Bool :=
  let distNoseToLeftEye := |noseTip.x - leftEye.x|
  let distNoseToRightEye := |noseTip.x - rightEye.x|
  if distNoseToLeftEye = 0 ∨ distNoseToRightEye = 0 then false
  else
    let ratio := min distNoseToLeftEye distNoseToRightEye /
      max distNoseToLeftEye distNoseToRightEye
    decide (ratio > frontalThreshold)

/-- The frontality ratio `min(dLeft, dRight) / max(dLeft, dRight)`
computed by `isFacingForward`. -/
def frontalRatio (leftEye rightEye noseTip : Point) : ℚ :=
  min |noseTip.x - leftEye.x| |noseTip.x - rightEye.x| /
    max |noseTip.x - leftEye.x| |noseTip.x - rightEye.x|

/-- `isFaceInROI` of `mediapipe.js` (lines 184-218), the full-containment
variant: the mirrored, scaled face box must lie entirely inside the ROI
rectangle in client pixels. -/
def isFaceInROI (roi : ROI) (v : Video) (d : Detection) : Bool :=
  let scale := v.clientHeight / v.videoHeight
  let offsetX := (v.clientWidth - v.videoWidth * scale) / 2
  let scaledWidth := d.boundingBox.width * scale
  let scaledHeight := d.boundingBox.height * scale
  let scaledOriginX := d.boundingBox.originX * scale
  let scaledOriginY := d.boundingBox.originY * scale
  let faceLeft := v.clientWidth - scaledOriginX - scaledWidth - offsetX
  let faceTop := scaledOriginY
  let faceBottom := scaledOriginY + scaledHeight
  let faceRight := faceLeft + scaledWidth
  let roiLeft := v.clientWidth * roi.x
  let roiTop := v.clientHeight * roi.y
  let roiRight := v.clientWidth * (roi.x + roi.width)
  let roiBottom := v.clientHeight * (roi.y + roi.height)
  decide (faceLeft ≥ roiLeft ∧ faceRight ≤ roiRight ∧
    faceTop ≥ roiTop ∧ faceBottom ≤ roiBottom)

/-- `isFaceInROI` of `src/unnamed/part_001` (lines 190-210), the
center-containment variant: the mirrored, scaled box center must lie
strictly inside the ROI rectangle in client pixels. -/
def isFaceInROICenter (roi : ROI) (v : Video) (d : Detection) : Bool :=
  let scale := v.clientHeight / v.videoHeight
  let offsetX := (v.clientWidth - v.videoWidth * scale) / 2
  let boxCenterX := v.clientWidth -
    (d.boundingBox.originX + d.boundingBox.width / 2) * scale - offsetX
  let boxCenterY := (d.boundingBox.originY + d.boundingBox.height / 2) * scale
  let roiX := v.clientWidth * roi.x
  let roiY := v.clientHeight * roi.y
  let roiW := v.clientWidth * roi.width
  let roiH := v.clientHeight * roi.height
  decide (boxCenterX > roiX ∧ boxCenterX < roiX + roiW ∧
    boxCenterY > roiY ∧ boxCenterY < roiY + roiH)

/-- The ROI gate of `handleDetections`: when no region is configured
(`part_000` variant) every detection passes; otherwise the
full-containment test of `mediapipe.js` is applied. -/
def roiCheck (cfg : Config) (v : Video) (d : Detection) : Bool :=
  match cfg.roi with
  | none => true
  | some r => isFaceInROI r v d

/-- One frame of the validator: the `predictWebcam` terminal guard
(`mediapipe.js` line 71) composed with `handleDetections`
(lines 83-118).  Returns the decision together with the updated state. -/
def evaluate (obs : Option Detection) (cfg : Config) (v : Video)
    (s : ValidatorState) : Decision × ValidatorState :=
  if s.phase = Phase.Succeeded then
    (Decision.AlreadyAccepted, s)
  else
    match obs with
    | none => (Decision.NoFace, { s with consecutiveFrames := 0 })
    | some d =>
      if roiCheck cfg v d = false then
        (Decision.NoFace, { s with consecutiveFrames := 0 })
      else if d.score > cfg.minScore ∧
          isFacingForward d.leftEye d.rightEye d.noseTip
            cfg.frontalThreshold = true then
        if s.consecutiveFrames + 1 ≥ cfg.requiredConsecutiveFrames then
          (Decision.Accepted,
            { consecutiveFrames := s.consecutiveFrames + 1,
              phase := Phase.Succeeded })
        else
          (Decision.Validating
            (progressAt (s.consecutiveFrames + 1)
              cfg.requiredConsecutiveFrames),
            { s with consecutiveFrames := s.consecutiveFrames + 1 })
      else
        (Decision.Invalid, { s with consecutiveFrames := 0 })

/-- Running the validator over a whole sequence of frames, keeping only
the state (the detection loop of `predictWebcam`). -/
def runFrames (frames : List (Option Detection)) (cfg : Config)
    (v : Video) (s : ValidatorState) : ValidatorState :=
  match frames with
  | [] => s
  | obs :: rest => runFrames rest cfg v (evaluate obs cfg v s).2

end Liveness

namespace Liveness

/-! ## Concrete fixtures

Concrete observations, configurations and states used to instantiate the
general theorems and to exhibit counterexamples.  `d0` is a qualifying
detection (score 0.95, symmetric keypoints); `dLow` the same face with
score 0.5; `dOut` a qualifying face whose bounding box is not contained in
the configured region.  `cfg0` is the example configuration of the spec
(3 required frames, threshold 0.9, frontal ratio 0.7, no region);
`cfg200` raises the required frames to 200; `cfgROI` adds the region of
the source (`CONFIG.roi`).  `v0` is a video with equal client and source
geometry, so scale is 1 and the mirror offset is 0. -/

/-- A qualifying detection: confidence 0.95, nose equidistant from both
eyes. -/
def d0 : Detection :=
  { score := 19/20, boundingBox := ⟨0, 0, 1, 1⟩,
    leftEye := ⟨3/10, 1/2⟩, rightEye := ⟨7/10, 1/2⟩, noseTip := ⟨1/2, 1/2⟩ }

/-- The same face with confidence 0.5, below the 0.9 threshold. -/
def dLow : Detection :=
  { score := 1/2, boundingBox := ⟨0, 0, 1, 1⟩,
    leftEye := ⟨3/10, 1/2⟩, rightEye := ⟨7/10, 1/2⟩, noseTip := ⟨1/2, 1/2⟩ }

/-- A qualifying face whose bounding box falls outside the region of
interest of `cfgROI` under the geometry `v0`. -/
def dOut : Detection :=
  { score := 19/20, boundingBox := ⟨0, 0, 100, 100⟩,
    leftEye := ⟨3/10, 1/2⟩, rightEye := ⟨7/10, 1/2⟩, noseTip := ⟨1/2, 1/2⟩ }

/-- The region of the source: `{ x: 0.20, y: 0.15, width: 0.60,
height: 0.70 }`. -/
def roi0 : ROI := { x := 1/5, y := 3/20, width := 3/5, height := 7/10 }

/-- The example configuration of the spec: threshold 0.9, 3 required
frames, frontal ratio 0.7, no region. -/
def cfg0 : Config :=
  { minScore := 9/10, requiredConsecutiveFrames := 3,
    frontalThreshold := 7/10, roi := none }

/-- The same configuration with 200 required consecutive frames. -/
def cfg200 : Config :=
  { minScore := 9/10, requiredConsecutiveFrames := 200,
    frontalThreshold := 7/10, roi := none }

/-- The same configuration with the region `roi0` configured. -/
def cfgROI : Config :=
  { minScore := 9/10, requiredConsecutiveFrames := 3,
    frontalThreshold := 7/10, roi := some roi0 }

/-- A video whose client and source geometry agree, so the scale factor is
1 and the mirroring offset is 0. -/
def v0 : Video :=
  { clientWidth := 640, clientHeight := 360, videoWidth := 640, videoHeight := 360 }

/-- The initial state: counter 0, detecting. -/
def s0 : ValidatorState := { consecutiveFrames := 0, phase := Phase.Detecting }

/-- A mid-validation state: counter 2 (one short of acceptance under
`cfg0`), detecting. -/
def s2 : ValidatorState := { consecutiveFrames := 2, phase := Phase.Detecting }

/-- A state one qualifying frame short of acceptance under `cfg200`. -/
def s198 : ValidatorState := { consecutiveFrames := 198, phase := Phase.Detecting }

/-- A terminal state, reached after acceptance. -/
def sDone : ValidatorState := { consecutiveFrames := 5, phase := Phase.Succeeded }

/-- Degenerate keypoints: left eye, right eye and nose share the same x
coordinate, so both horizontal distances are zero. -/
def pEyeL : Point := { x := 1/2, y := 2/5 }

/-- Degenerate keypoints, right eye. -/
def pEyeR : Point := { x := 1/2, y := 3/5 }

/-- Degenerate keypoints, nose tip. -/
def pNose : Point := { x := 1/2, y := 1/2 }

end Liveness

namespace Liveness

/-! ## Branch lemmas

One lemma per control-flow branch of `evaluate`, used by the claim
theorems below. -/

/-- Once the phase is `Succeeded`, `predictWebcam` returns before calling
`handleDetections`: the frame is a silent no-op. -/
theorem evaluate_succ_noop (obs : Option Detection) (cfg : Config) (v : Video)
    (s : ValidatorState) (hsucc : s.phase = Phase.Succeeded) :
    evaluate obs cfg v s = (Decision.AlreadyAccepted, s) := by
  simp [evaluate, hsucc]

/-- The no-detection branch: counter reset, no-face decision. -/
theorem evaluate_none_eq (cfg : Config) (v : Video) (s : ValidatorState)
    (hphase : s.phase = Phase.Detecting) :
    evaluate none cfg v s = (Decision.NoFace, { s with consecutiveFrames := 0 }) := by
  simp [evaluate, hphase]

/-- The out-of-region branch: counter reset, no-face decision. -/
theorem evaluate_out_of_roi (d : Detection) (cfg : Config) (v : Video)
    (s : ValidatorState) (hphase : s.phase = Phase.Detecting)
    (hroi : roiCheck cfg v d = false) :
    evaluate (some d) cfg v s = (Decision.NoFace, { s with consecutiveFrames := 0 }) := by
  simp [evaluate, hphase, hroi]

/-- The disqualified branch (low confidence or not frontal): counter
reset, invalid decision. -/
theorem evaluate_disq (d : Detection) (cfg : Config) (v : Video)
    (s : ValidatorState) (hphase : s.phase = Phase.Detecting)
    (hroi : roiCheck cfg v d = true)
    (hdisq : ¬ (d.score > cfg.minScore ∧
      isFacingForward d.leftEye d.rightEye d.noseTip cfg.frontalThreshold = true)) :
    evaluate (some d) cfg v s = (Decision.Invalid, { s with consecutiveFrames := 0 }) := by
  simp only [evaluate, hphase, hroi, reduceCtorEq, if_false, Bool.true_eq_false,
    if_neg hdisq]

/-- The qualifying branch, acceptance case: increment reaches the
required count, terminal transition. -/
theorem evaluate_qualifying_accept (d : Detection) (cfg : Config) (v : Video)
    (s : ValidatorState) (hphase : s.phase = Phase.Detecting)
    (hroi : roiCheck cfg v d = true)
    (hconf : d.score > cfg.minScore)
    (hfrontal : isFacingForward d.leftEye d.rightEye d.noseTip
      cfg.frontalThreshold = true)
    (hge : s.consecutiveFrames + 1 ≥ cfg.requiredConsecutiveFrames) :
    evaluate (some d) cfg v s =
      (Decision.Accepted,
        { consecutiveFrames := s.consecutiveFrames + 1, phase := Phase.Succeeded }) := by
  simp [evaluate, hphase, hroi, hconf, hfrontal, hge]

/-- The qualifying branch, progress case: increment below the required
count, validating decision with rounded percentage. -/
theorem evaluate_qualifying_validating (d : Detection) (cfg : Config) (v : Video)
    (s : ValidatorState) (hphase : s.phase = Phase.Detecting)
    (hroi : roiCheck cfg v d = true)
    (hconf : d.score > cfg.minScore)
    (hfrontal : isFacingForward d.leftEye d.rightEye d.noseTip
      cfg.frontalThreshold = true)
    (hlt : s.consecutiveFrames + 1 < cfg.requiredConsecutiveFrames) :
    evaluate (some d) cfg v s =
      (Decision.Validating (progressAt (s.consecutiveFrames + 1)
          cfg.requiredConsecutiveFrames),
        { consecutiveFrames := s.consecutiveFrames + 1, phase := Phase.Detecting }) := by
  have hnge : ¬ (s.consecutiveFrames + 1 ≥ cfg.requiredConsecutiveFrames) := by omega
  simp [evaluate, hphase, hroi, hconf, hfrontal, hnge]

/-- A frontality ratio at or below the threshold makes `isFacingForward`
false (also covering the degenerate zero-distance cases, where the ratio
denormalizes to 0 in the rational model). -/
theorem isFacingForward_eq_false_of_ratio_le (eyeL eyeR nose : Point) (th : ℚ)
    (h : frontalRatio eyeL eyeR nose ≤ th) :
    isFacingForward eyeL eyeR nose th = false := by
  unfold frontalRatio at h
  simp only [isFacingForward]
  split
  · rfl
  · exact decide_eq_false (not_lt.2 h)

/-! ## Arithmetic lemmas about the rounded progress percentage -/

/-- The rounded progress percentage is never negative. -/
theorem progressAt_nonneg (c N : ℕ) : 0 ≤ progressAt c N := by
  unfold progressAt jsRound
  refine Int.floor_nonneg.2 ?_
  positivity

/-- Below the required count the rounded progress percentage is at most
100. -/
theorem progressAt_le_100 (c N : ℕ) (h : c < N) : progressAt c N ≤ 100 := by
  unfold progressAt jsRound
  have hN0 : 0 < N := lt_of_le_of_lt (Nat.zero_le c) h
  have hNQ : (0:ℚ) < (N:ℚ) := by exact_mod_cast hN0
  have hlt : (c:ℚ) / (N:ℚ) < 1 := (div_lt_one hNQ).2 (by exact_mod_cast h)
  have harg : (c:ℚ) / (N:ℚ) * 100 + 1/2 < 101 := by nlinarith
  have := Int.floor_lt.2 (by exact_mod_cast harg :
    (c:ℚ) / (N:ℚ) * 100 + 1/2 < ((101:ℤ):ℚ))
  omega

/-- For a required count of at most 199 frames, the rounded progress
percentage stays strictly below 100 below the required count; at 200 and
beyond this fails (see the counterexample to claim C5). -/
theorem progressAt_lt_100 (c N : ℕ) (hc : c < N) (hN : N ≤ 199) :
    progressAt c N < 100 := by
  unfold progressAt jsRound
  have hN0 : 0 < N := lt_of_le_of_lt (Nat.zero_le c) hc
  have hNQ : (0:ℚ) < (N:ℚ) := by exact_mod_cast hN0
  have hkey : 200 * c < 199 * N := by omega
  have hkeyQ : (200:ℚ) * (c:ℚ) < 199 * (N:ℚ) := by exact_mod_cast hkey
  have harg : (c:ℚ) / (N:ℚ) * 100 + 1/2 < 100 := by
    rw [div_mul_eq_mul_div, ← lt_sub_iff_add_lt, div_lt_iff₀ hNQ]
    linarith
  have := Int.floor_lt.2 (by exact_mod_cast harg :
    (c:ℚ) / (N:ℚ) * 100 + 1/2 < ((100:ℤ):ℚ))
  omega

/-- Shifting a floor argument by a nonnegative amount moves the floor by
between the floor and the ceiling of the shift. -/
theorem floor_add_le_floor_add_ceil (x d : ℚ) :
    ⌊x⌋ + ⌊d⌋ ≤ ⌊x + d⌋ ∧ ⌊x + d⌋ ≤ ⌊x⌋ + ⌈d⌉ := by
  constructor
  · refine Int.le_floor.2 ?_
    push_cast
    have h1 := Int.floor_le x
    have h2 := Int.floor_le d
    linarith
  · have h1 := Int.lt_floor_add_one x
    have h2 := Int.le_ceil d
    have h3 : x + d < ((⌊x⌋ + ⌈d⌉ + 1 : ℤ) : ℚ) := by push_cast; linarith
    have := Int.floor_lt.2 h3
    omega

/-- One more counted frame shifts the rounding argument by exactly
`100 / N`. -/
theorem progressAt_succ_eq (c N : ℕ) (hN : 0 < N) :
    ((c+1 : ℕ):ℚ) / (N:ℚ) * 100 + 1/2 =
      ((c:ℚ) / (N:ℚ) * 100 + 1/2) + 100 / (N:ℚ) := by
  have hNQ : ((N:ℚ)) ≠ 0 := by positivity
  push_cast
  field_simp
  ring

/-- Per counted frame the rounded percentage does not decrease, and the
step is the floor or the ceiling of `100 / N`. -/
theorem progressAt_step (c N : ℕ) (hN : 0 < N) :
    progressAt c N ≤ progressAt (c+1) N ∧
    (progressAt (c+1) N - progressAt c N = ⌊(100:ℚ) / (N:ℚ)⌋ ∨
     progressAt (c+1) N - progressAt c N = ⌈(100:ℚ) / (N:ℚ)⌉) := by
  have hNQ : (0:ℚ) < (N:ℚ) := by exact_mod_cast hN
  have hd : (0:ℚ) ≤ 100 / (N:ℚ) := by positivity
  unfold progressAt jsRound
  rw [progressAt_succ_eq c N hN]
  obtain ⟨hlo, hhi⟩ := floor_add_le_floor_add_ceil ((c:ℚ) / (N:ℚ) * 100 + 1/2) (100 / (N:ℚ))
  have hfd : 0 ≤ ⌊(100:ℚ) / (N:ℚ)⌋ := Int.floor_nonneg.2 hd
  have hcf : ⌈(100:ℚ) / (N:ℚ)⌉ ≤ ⌊(100:ℚ) / (N:ℚ)⌋ + 1 := Int.ceil_le_floor_add_one _
  omega

end Liveness

namespace Liveness

/-! ## Claim theorems -/

/-- C1: in phase `Detecting`, a present observation passing the ROI check
whose confidence strictly exceeds `minConfidence` and whose pose is
frontal increments `consecutiveFrames` by exactly 1; when the incremented
counter reaches `requiredConsecutiveFrames` the phase becomes `Succeeded`
and the decision is `Accepted`, otherwise the decision is
`Validating(progress)`. -/
theorem C1_qualifying_increments (d : Detection) (cfg : Config) (v : Video)
    (s : ValidatorState) (hphase : s.phase = Phase.Detecting)
    (hroi : roiCheck cfg v d = true)
    (hconf : d.score > cfg.minScore)
    (hfrontal : isFacingForward d.leftEye d.rightEye d.noseTip
      cfg.frontalThreshold = true) :
    (evaluate (some d) cfg v s).2.consecutiveFrames = s.consecutiveFrames + 1 ∧
    (s.consecutiveFrames + 1 ≥ cfg.requiredConsecutiveFrames →
      (evaluate (some d) cfg v s).1 = Decision.Accepted ∧
      (evaluate (some d) cfg v s).2.phase = Phase.Succeeded) ∧
    (s.consecutiveFrames + 1 < cfg.requiredConsecutiveFrames →
      (evaluate (some d) cfg v s).1 =
        Decision.Validating (progressAt (s.consecutiveFrames + 1)
          cfg.requiredConsecutiveFrames)) := by
  by_cases hge : s.consecutiveFrames + 1 ≥ cfg.requiredConsecutiveFrames
  · rw [evaluate_qualifying_accept d cfg v s hphase hroi hconf hfrontal hge]
    exact ⟨rfl, fun _ => ⟨rfl, rfl⟩, fun hlt => absurd hlt (by omega)⟩
  · rw [evaluate_qualifying_validating d cfg v s hphase hroi hconf hfrontal (by omega)]
    exact ⟨rfl, fun hge2 => absurd hge2 hge, fun _ => rfl⟩

/-- Witness for C1: the qualifying detection `d0` under `cfg0` from the
initial state. -/
theorem C1_witness :
    (evaluate (some d0) cfg0 v0 s0).2.consecutiveFrames = s0.consecutiveFrames + 1 ∧
    (s0.consecutiveFrames + 1 ≥ cfg0.requiredConsecutiveFrames →
      (evaluate (some d0) cfg0 v0 s0).1 = Decision.Accepted ∧
      (evaluate (some d0) cfg0 v0 s0).2.phase = Phase.Succeeded) ∧
    (s0.consecutiveFrames + 1 < cfg0.requiredConsecutiveFrames →
      (evaluate (some d0) cfg0 v0 s0).1 =
        Decision.Validating (progressAt (s0.consecutiveFrames + 1)
          cfg0.requiredConsecutiveFrames)) :=
  C1_qualifying_increments d0 cfg0 v0 s0 rfl rfl
    (by norm_num [d0, cfg0])
    (by norm_num [isFacingForward, d0, cfg0])

/-- C2: any single disqualifying frame — missing observation, out-of-ROI,
confidence at or below `minConfidence`, or frontality ratio at or below
`frontalRatioThreshold` — resets `consecutiveFrames` to exactly 0,
whatever the counter was before. -/
theorem C2_disqualifying_resets (obs : Option Detection) (cfg : Config)
    (v : Video) (s : ValidatorState) (hphase : s.phase = Phase.Detecting)
    (hdisq : obs = none ∨ ∃ d, obs = some d ∧
      (roiCheck cfg v d = false ∨ d.score ≤ cfg.minScore ∨
        frontalRatio d.leftEye d.rightEye d.noseTip ≤ cfg.frontalThreshold)) :
    (evaluate obs cfg v s).2.consecutiveFrames = 0 := by
  rcases hdisq with rfl | ⟨d, rfl, hcase⟩
  · rw [evaluate_none_eq cfg v s hphase]
  · by_cases hroi : roiCheck cfg v d = true
    · rcases hcase with hout | hconf | hratio
      · rw [hout] at hroi; cases hroi
      · rw [evaluate_disq d cfg v s hphase hroi (fun hq => absurd hq.1 (not_lt.2 hconf))]
      · rw [evaluate_disq d cfg v s hphase hroi (fun hq => by
          rw [isFacingForward_eq_false_of_ratio_le d.leftEye d.rightEye d.noseTip
            cfg.frontalThreshold hratio] at hq
          exact Bool.false_ne_true hq.2)]
    · rw [evaluate_out_of_roi d cfg v s hphase (Bool.not_eq_true _ ▸ hroi)]

/-- Witness for C2: a low-confidence frame (score 0.5) when the counter
stands at `requiredConsecutiveFrames - 1 = 2` resets it to 0. -/
theorem C2_witness :
    s2.phase = Phase.Detecting ∧
    (some dLow = none ∨ ∃ d, some dLow = some d ∧
      (roiCheck cfg0 v0 d = false ∨ d.score ≤ cfg0.minScore ∨
        frontalRatio d.leftEye d.rightEye d.noseTip ≤ cfg0.frontalThreshold)) ∧
    (evaluate (some dLow) cfg0 v0 s2).2.consecutiveFrames = 0 :=
  ⟨rfl, Or.inr ⟨dLow, rfl, Or.inr (Or.inl (by norm_num [dLow, cfg0]))⟩,
    C2_disqualifying_resets (some dLow) cfg0 v0 s2 rfl
      (Or.inr ⟨dLow, rfl, Or.inr (Or.inl (by norm_num [dLow, cfg0]))⟩)⟩

/-- C3: once the phase is `Succeeded` it stays `Succeeded` and
`consecutiveFrames` is never mutated, no matter how many further frames
are evaluated; each further call is a silent no-op returning the
already-accepted sentinel and the unchanged state. -/
theorem C3_terminal_frozen (frames : List (Option Detection)) (cfg : Config)
    (v : Video) (s : ValidatorState) (hsucc : s.phase = Phase.Succeeded) :
    runFrames frames cfg v s = s ∧
    ∀ obs, evaluate obs cfg v s = (Decision.AlreadyAccepted, s) := by
  refine ⟨?_, fun obs => evaluate_succ_noop obs cfg v s hsucc⟩
  induction frames with
  | nil => rfl
  | cons obs rest ih =>
    rw [runFrames, evaluate_succ_noop obs cfg v s hsucc]
    exact ih

/-- Witness for C3: three further frames after acceptance leave the
terminal state `sDone` untouched. -/
theorem C3_witness :
    runFrames [some d0, none, some dLow] cfg0 v0 sDone = sDone ∧
    ∀ obs, evaluate obs cfg0 v0 sDone = (Decision.AlreadyAccepted, sDone) :=
  C3_terminal_frozen [some d0, none, some dLow] cfg0 v0 sDone rfl

/-- C4: the frontality predicate classifies a face as frontal exactly when
both horizontal nose-to-eye distances are nonzero and the min/max ratio
strictly exceeds the frontal threshold; in particular a zero distance
fails closed (and the predicate is a total function, so it never
throws). -/
theorem C4_frontality_characterization (eyeL eyeR nose : Point) (th : ℚ) :
    isFacingForward eyeL eyeR nose th = true ↔
      (|nose.x - eyeL.x| ≠ 0 ∧ |nose.x - eyeR.x| ≠ 0 ∧
        frontalRatio eyeL eyeR nose > th) := by
  simp only [isFacingForward, frontalRatio]
  split
  · rename_i h
    simp only [Bool.false_eq_true, false_iff]
    rintro ⟨h1, h2, -⟩
    exact h.elim h1 h2
  · rename_i h
    push_neg at h
    simp only [decide_eq_true_eq]
    exact ⟨fun hr => ⟨h.1, h.2, hr⟩, fun hr => hr.2.2⟩

end Liveness

namespace Liveness

/-- Counterexample to C5: with `requiredConsecutiveFrames = 200` and the
counter at 198, a qualifying frame yields `Validating(100)` — the rounded
progress `round(100 * 199 / 200) = round(99.5) = 100` is not in the
half-open interval `[0, 100)` as the claim states. -/
theorem C5_counterexample :
    (evaluate (some d0) cfg200 v0 s198).1 = Decision.Validating 100 ∧
    ¬ ((100 : ℤ) < 100) := by
  refine ⟨?_, by omega⟩
  rw [evaluate_qualifying_validating d0 cfg200 v0 s198 rfl rfl
    (by norm_num [d0, cfg200])
    (by norm_num [isFacingForward, d0, cfg200])
    (by norm_num [s198, cfg200])]
  norm_num [progressAt, jsRound, s198, cfg200]

/-- C5 (amended): on a qualifying frame that does not reach the required
count the decision is `Validating(progress)` with
`progress = round(100 * consecutiveFrames / requiredConsecutiveFrames)`,
an integer in the closed interval `[0, 100]`; it lies in `[0, 100)`
whenever `requiredConsecutiveFrames` is at most 199 (which covers the
observed configurations 60 and 120). -/
theorem C5_validating_progress (d : Detection) (cfg : Config) (v : Video)
    (s : ValidatorState) (hphase : s.phase = Phase.Detecting)
    (hroi : roiCheck cfg v d = true)
    (hconf : d.score > cfg.minScore)
    (hfrontal : isFacingForward d.leftEye d.rightEye d.noseTip
      cfg.frontalThreshold = true)
    (hlt : s.consecutiveFrames + 1 < cfg.requiredConsecutiveFrames) :
    (evaluate (some d) cfg v s).1 =
      Decision.Validating (progressAt (s.consecutiveFrames + 1)
        cfg.requiredConsecutiveFrames) ∧
    0 ≤ progressAt (s.consecutiveFrames + 1) cfg.requiredConsecutiveFrames ∧
    progressAt (s.consecutiveFrames + 1) cfg.requiredConsecutiveFrames ≤ 100 ∧
    (cfg.requiredConsecutiveFrames ≤ 199 →
      progressAt (s.consecutiveFrames + 1) cfg.requiredConsecutiveFrames < 100) := by
  rw [evaluate_qualifying_validating d cfg v s hphase hroi hconf hfrontal hlt]
  exact ⟨rfl, progressAt_nonneg _ _, progressAt_le_100 _ _ hlt,
    fun hN => progressAt_lt_100 _ _ hlt hN⟩

/-- Witness for C5 (amended): the first qualifying frame under `cfg0`. -/
theorem C5_witness :
    (evaluate (some d0) cfg0 v0 s0).1 =
      Decision.Validating (progressAt (s0.consecutiveFrames + 1)
        cfg0.requiredConsecutiveFrames) ∧
    0 ≤ progressAt (s0.consecutiveFrames + 1) cfg0.requiredConsecutiveFrames ∧
    progressAt (s0.consecutiveFrames + 1) cfg0.requiredConsecutiveFrames ≤ 100 ∧
    (cfg0.requiredConsecutiveFrames ≤ 199 →
      progressAt (s0.consecutiveFrames + 1) cfg0.requiredConsecutiveFrames < 100) :=
  C5_validating_progress d0 cfg0 v0 s0 rfl rfl
    (by norm_num [d0, cfg0])
    (by norm_num [isFacingForward, d0, cfg0])
    (by norm_num [s0, cfg0])

/-- Counterexample to C6: with `requiredConsecutiveFrames = 3` the first
two qualifying frames yield `Validating(33)` then `Validating(67)` — a
step of 34, not the claimed fixed step `round(100/3) = 33`. -/
theorem C6_counterexample :
    (evaluate (some d0) cfg0 v0 s0).1 = Decision.Validating 33 ∧
    (evaluate (some d0) cfg0 v0 (evaluate (some d0) cfg0 v0 s0).2).1 =
      Decision.Validating 67 ∧
    ¬ ((67 : ℤ) - 33 = jsRound (100 / (cfg0.requiredConsecutiveFrames : ℚ))) := by
  have h1 : evaluate (some d0) cfg0 v0 s0 =
      (Decision.Validating (progressAt 1 3),
        { consecutiveFrames := 1, phase := Phase.Detecting }) := by
    rw [evaluate_qualifying_validating d0 cfg0 v0 s0 rfl rfl
      (by norm_num [d0, cfg0]) (by norm_num [isFacingForward, d0, cfg0])
      (by norm_num [s0, cfg0])]
    rfl
  have h2 : evaluate (some d0) cfg0 v0
      ({ consecutiveFrames := 1, phase := Phase.Detecting } : ValidatorState) =
      (Decision.Validating (progressAt 2 3),
        { consecutiveFrames := 2, phase := Phase.Detecting }) := by
    rw [evaluate_qualifying_validating d0 cfg0 v0 _ rfl rfl
      (by norm_num [d0, cfg0]) (by norm_num [isFacingForward, d0, cfg0])
      (by norm_num [cfg0])]
    rfl
  rw [h1, h2]
  refine ⟨?_, ?_, ?_⟩
  · norm_num [progressAt, jsRound]
  · norm_num [progressAt, jsRound]
  · norm_num [jsRound, cfg0]

/-- C6 (amended): over two consecutive qualifying frames that stay short
of acceptance, the reported progress is non-decreasing, and each
per-frame step equals the floor or the ceiling of
`100 / requiredConsecutiveFrames` (so it is not in general the fixed step
`round(100/requiredConsecutiveFrames)`, and it can be 0 when
`requiredConsecutiveFrames > 100`, so the increase is not strict). -/
theorem C6_progress_monotone_step (d1 d2 : Detection) (cfg : Config) (v : Video)
    (s : ValidatorState) (hphase : s.phase = Phase.Detecting)
    (hroi1 : roiCheck cfg v d1 = true)
    (hconf1 : d1.score > cfg.minScore)
    (hfrontal1 : isFacingForward d1.leftEye d1.rightEye d1.noseTip
      cfg.frontalThreshold = true)
    (hroi2 : roiCheck cfg v d2 = true)
    (hconf2 : d2.score > cfg.minScore)
    (hfrontal2 : isFacingForward d2.leftEye d2.rightEye d2.noseTip
      cfg.frontalThreshold = true)
    (hlt : s.consecutiveFrames + 2 < cfg.requiredConsecutiveFrames) :
    (evaluate (some d1) cfg v s).1 =
      Decision.Validating (progressAt (s.consecutiveFrames + 1)
        cfg.requiredConsecutiveFrames) ∧
    (evaluate (some d2) cfg v (evaluate (some d1) cfg v s).2).1 =
      Decision.Validating (progressAt (s.consecutiveFrames + 2)
        cfg.requiredConsecutiveFrames) ∧
    progressAt (s.consecutiveFrames + 1) cfg.requiredConsecutiveFrames ≤
      progressAt (s.consecutiveFrames + 2) cfg.requiredConsecutiveFrames ∧
    (progressAt (s.consecutiveFrames + 2) cfg.requiredConsecutiveFrames -
        progressAt (s.consecutiveFrames + 1) cfg.requiredConsecutiveFrames =
        ⌊(100:ℚ) / (cfg.requiredConsecutiveFrames : ℚ)⌋ ∨
      progressAt (s.consecutiveFrames + 2) cfg.requiredConsecutiveFrames -
        progressAt (s.consecutiveFrames + 1) cfg.requiredConsecutiveFrames =
        ⌈(100:ℚ) / (cfg.requiredConsecutiveFrames : ℚ)⌉) := by
  have h1 : evaluate (some d1) cfg v s =
      (Decision.Validating (progressAt (s.consecutiveFrames + 1)
          cfg.requiredConsecutiveFrames),
        { consecutiveFrames := s.consecutiveFrames + 1, phase := Phase.Detecting }) :=
    evaluate_qualifying_validating d1 cfg v s hphase hroi1 hconf1 hfrontal1 (by omega)
  have h2 : evaluate (some d2) cfg v
      ({ consecutiveFrames := s.consecutiveFrames + 1,
         phase := Phase.Detecting } : ValidatorState) =
      (Decision.Validating (progressAt (s.consecutiveFrames + 1 + 1)
          cfg.requiredConsecutiveFrames),
        { consecutiveFrames := s.consecutiveFrames + 1 + 1,
          phase := Phase.Detecting }) :=
    evaluate_qualifying_validating d2 cfg v _ rfl hroi2 hconf2 hfrontal2 (by simp; omega)
  have hstep := progressAt_step (s.consecutiveFrames + 1)
    cfg.requiredConsecutiveFrames (by omega)
  rw [h1, h2]
  refine ⟨rfl, ?_, ?_, ?_⟩
  · show Decision.Validating _ = Decision.Validating _
    norm_num
  · have h21 : s.consecutiveFrames + 1 + 1 = s.consecutiveFrames + 2 := by omega
    rw [← h21]
    exact hstep.1
  · have h21 : s.consecutiveFrames + 1 + 1 = s.consecutiveFrames + 2 := by omega
    rw [← h21]
    exact hstep.2

/-- Witness for C6 (amended): two qualifying frames under `cfg0` from the
initial state. -/
theorem C6_witness :
    (evaluate (some d0) cfg0 v0 s0).1 =
      Decision.Validating (progressAt (s0.consecutiveFrames + 1)
        cfg0.requiredConsecutiveFrames) ∧
    (evaluate (some d0) cfg0 v0 (evaluate (some d0) cfg0 v0 s0).2).1 =
      Decision.Validating (progressAt (s0.consecutiveFrames + 2)
        cfg0.requiredConsecutiveFrames) ∧
    progressAt (s0.consecutiveFrames + 1) cfg0.requiredConsecutiveFrames ≤
      progressAt (s0.consecutiveFrames + 2) cfg0.requiredConsecutiveFrames ∧
    (progressAt (s0.consecutiveFrames + 2) cfg0.requiredConsecutiveFrames -
        progressAt (s0.consecutiveFrames + 1) cfg0.requiredConsecutiveFrames =
        ⌊(100:ℚ) / (cfg0.requiredConsecutiveFrames : ℚ)⌋ ∨
      progressAt (s0.consecutiveFrames + 2) cfg0.requiredConsecutiveFrames -
        progressAt (s0.consecutiveFrames + 1) cfg0.requiredConsecutiveFrames =
        ⌈(100:ℚ) / (cfg0.requiredConsecutiveFrames : ℚ)⌉) :=
  C6_progress_monotone_step d0 d0 cfg0 v0 s0 rfl rfl
    (by norm_num [d0, cfg0]) (by norm_num [isFacingForward, d0, cfg0])
    rfl (by norm_num [d0, cfg0]) (by norm_num [isFacingForward, d0, cfg0])
    (by norm_num [s0, cfg0])

end Liveness

namespace Liveness

/-- C7: in any non-terminal state, an absent observation resets
`consecutiveFrames` to 0 and yields the `NoFace` decision, regardless of
the prior counter value. -/
theorem C7_no_face_resets (cfg : Config) (v : Video) (s : ValidatorState)
    (hphase : s.phase = Phase.Detecting) :
    evaluate none cfg v s = (Decision.NoFace, { s with consecutiveFrames := 0 }) :=
  evaluate_none_eq cfg v s hphase

/-- Witness for C7: an absent observation at counter 2 under `cfg0`. -/
theorem C7_witness :
    evaluate none cfg0 v0 s2 = (Decision.NoFace, { s2 with consecutiveFrames := 0 }) :=
  C7_no_face_resets cfg0 v0 s2 rfl

/-- Counterexample to C8: `dOut` has qualifying confidence and pose but a
bounding box outside the configured region; the code resets the counter
but emits the no-face status (`STATUS.NO_FACE`, the same message as for a
missing face), not a distinct `OutOfRegion` decision as the claim
states. -/
theorem C8_counterexample :
    dOut.score > cfgROI.minScore ∧
    isFacingForward dOut.leftEye dOut.rightEye dOut.noseTip
      cfgROI.frontalThreshold = true ∧
    isFaceInROI roi0 v0 dOut = false ∧
    evaluate (some dOut) cfgROI v0 s2 =
      (Decision.NoFace, { s2 with consecutiveFrames := 0 }) ∧
    Decision.NoFace ≠ Decision.OutOfRegion := by
  refine ⟨by norm_num [dOut, cfgROI], by norm_num [isFacingForward, dOut, cfgROI],
    by norm_num [isFaceInROI, roi0, v0, dOut], ?_, by simp⟩
  exact evaluate_out_of_roi dOut cfgROI v0 s2 rfl
    (by norm_num [roiCheck, cfgROI, isFaceInROI, roi0, v0, dOut])

/-- C8 (amended): when a region of interest is configured and the present
observation's bounding box fails the containment test, `evaluate` resets
`consecutiveFrames` to 0 and returns the `NoFace` decision (the code
reuses the no-face status for the out-of-region case rather than emitting
a distinct `OutOfRegion` decision) — never `Validating` — even when
confidence and pose otherwise qualify. -/
theorem C8_out_of_roi_resets (d : Detection) (cfg : Config) (v : Video)
    (s : ValidatorState) (r : ROI) (hphase : s.phase = Phase.Detecting)
    (hcfg : cfg.roi = some r) (hout : isFaceInROI r v d = false) :
    evaluate (some d) cfg v s = (Decision.NoFace, { s with consecutiveFrames := 0 }) ∧
    ∀ p, (evaluate (some d) cfg v s).1 ≠ Decision.Validating p := by
  have hroi : roiCheck cfg v d = false := by
    simp only [roiCheck, hcfg, hout]
  have heval := evaluate_out_of_roi d cfg v s hphase hroi
  exact ⟨heval, fun p => by rw [heval]; simp⟩

/-- Witness for C8 (amended): the out-of-region detection `dOut` under
`cfgROI` at counter 2. -/
theorem C8_witness :
    (evaluate (some dOut) cfgROI v0 s2 =
      (Decision.NoFace, { s2 with consecutiveFrames := 0 }) ∧
    ∀ p, (evaluate (some dOut) cfgROI v0 s2).1 ≠ Decision.Validating p) :=
  C8_out_of_roi_resets dOut cfgROI v0 s2 roi0 rfl rfl
    (by norm_num [isFaceInROI, roi0, v0, dOut])

/-- Counterexample to C9: the degenerate placement with nose exactly
equidistant from both eyes at distance zero (all three x coordinates
equal) satisfies `dLeft = dRight`, yet the predicate classifies it as not
frontal for the threshold 0.7 < 1, against the claim that every
equidistant placement is classified frontal. -/
theorem C9_counterexample :
    |pNose.x - pEyeL.x| = |pNose.x - pEyeR.x| ∧ (7 : ℚ)/10 < 1 ∧
    isFacingForward pEyeL pEyeR pNose (7/10) = false := by
  norm_num [pEyeL, pEyeR, pNose, isFacingForward]

/-- C9 (amended): for every placement with the nose equidistant from both
eyes at a nonzero horizontal distance, the frontality ratio equals 1 and
the predicate classifies the face as frontal for every threshold strictly
less than 1 (the zero-distance equidistant placement instead fails
closed). -/
theorem C9_symmetric_frontal (eyeL eyeR nose : Point) (th : ℚ)
    (heq : |nose.x - eyeL.x| = |nose.x - eyeR.x|)
    (hne : |nose.x - eyeL.x| ≠ 0) (hth : th < 1) :
    frontalRatio eyeL eyeR nose = 1 ∧
    isFacingForward eyeL eyeR nose th = true := by
  have hratio : frontalRatio eyeL eyeR nose = 1 := by
    unfold frontalRatio
    rw [← heq, min_self, max_self, div_self hne]
  refine ⟨hratio, ?_⟩
  simp only [isFacingForward]
  rw [if_neg (by rw [← heq]; exact fun h => h.elim hne hne)]
  unfold frontalRatio at hratio
  rw [hratio]
  exact decide_eq_true hth

/-- Witness for C9 (amended): the symmetric keypoints of `d0` (distances
0.2 = 0.2) with threshold 0.7. -/
theorem C9_witness :
    frontalRatio d0.leftEye d0.rightEye d0.noseTip = 1 ∧
    isFacingForward d0.leftEye d0.rightEye d0.noseTip (7/10) = true :=
  C9_symmetric_frontal d0.leftEye d0.rightEye d0.noseTip (7/10)
    (by norm_num [d0]) (by norm_num [d0]) (by norm_num)

/-- C10: whenever an `evaluate` call completes with the phase still
`Detecting`, the counter satisfies
`0 ≤ consecutiveFrames ≤ requiredConsecutiveFrames - 1`; equivalently,
a counter at or past the required count occurs only in the same call that
flips the phase to `Succeeded`. -/
theorem C10_detecting_counter_bound (obs : Option Detection) (cfg : Config)
    (v : Video) (s : ValidatorState)
    (h : (evaluate obs cfg v s).2.phase = Phase.Detecting) :
    0 ≤ (evaluate obs cfg v s).2.consecutiveFrames ∧
    (evaluate obs cfg v s).2.consecutiveFrames ≤
      cfg.requiredConsecutiveFrames - 1 := by
  refine ⟨Nat.zero_le _, ?_⟩
  by_cases hsucc : s.phase = Phase.Succeeded
  · rw [evaluate_succ_noop obs cfg v s hsucc, hsucc] at h
    cases h
  · have hphase : s.phase = Phase.Detecting := by
      cases hp : s.phase
      · rfl
      · exact absurd hp hsucc
    match obs with
    | none =>
      rw [evaluate_none_eq cfg v s hphase]
      exact Nat.zero_le _
    | some d =>
      by_cases hroi : roiCheck cfg v d = true
      · by_cases hq : d.score > cfg.minScore ∧
          isFacingForward d.leftEye d.rightEye d.noseTip cfg.frontalThreshold = true
        · by_cases hge : s.consecutiveFrames + 1 ≥ cfg.requiredConsecutiveFrames
          · rw [evaluate_qualifying_accept d cfg v s hphase hroi hq.1 hq.2 hge] at h
            cases h
          · rw [evaluate_qualifying_validating d cfg v s hphase hroi hq.1 hq.2 (by omega)]
            simp only []
            omega
        · rw [evaluate_disq d cfg v s hphase hroi hq]
          exact Nat.zero_le _
      · rw [evaluate_out_of_roi d cfg v s hphase (Bool.not_eq_true _ ▸ hroi)]
        exact Nat.zero_le _

/-- Witness for C10: the first qualifying frame under `cfg0` leaves the
counter at 1 ≤ 2. -/
theorem C10_witness :
    0 ≤ (evaluate (some d0) cfg0 v0 s0).2.consecutiveFrames ∧
    (evaluate (some d0) cfg0 v0 s0).2.consecutiveFrames ≤
      cfg0.requiredConsecutiveFrames - 1 :=
  C10_detecting_counter_bound (some d0) cfg0 v0 s0
    (by rw [evaluate_qualifying_validating d0 cfg0 v0 s0 rfl rfl
        (by norm_num [d0, cfg0]) (by norm_num [isFacingForward, d0, cfg0])
        (by norm_num [s0, cfg0])])

end Liveness
